import Mathlib

/-!
Shallow embedding of the job-orchestration, progress-multiplexing and
capability-token core of the youtube-mp3-app backend, together with
theorems checking the natural-language specification against it.

The embedded modules are:
* `src/backend/src/utils/tokenGenerator.js` (`generateDownloadToken`,
  `validateDownloadToken`);
* `src/backend/src/utils/validators.js` (`validateAudioFormat`,
  `validateYouTubeUrl`, `validateCustomFilename`);
* `src/backend/src/utils/progressTracker.js` (the `ProgressTracker` class);
* `src/backend/index.js` (the yt-dlp progress-line parsing of
  `parseYtDlpProgress` / `executeDownloadWithProgress`, and the
  `app.use(apiLimiter)` / `GET /health` middleware chain);
* `src/backend/src/middleware/rateLimiter.js` (`apiLimiter`).

JavaScript `Map` objects are embedded as association lists with
overwrite-on-set semantics; `Date.now()` is passed in explicitly as a `Nat`
timestamp; externally injected primitives (the sha256 hex digest, the
`validator.isURL` predicate and the WHATWG `URL` parser) are parameters of
the functions that call them.
-/

namespace YtMp3

/-! ### Association-list model of a JavaScript Map -/

/-- Model of `Map.prototype.delete`: remove the binding of `k`. -/
def mapDelete {α : Type} (k : String) (m : List (String × α)) : List (String × α) :=
  m.filter (fun p => p.1 != k)

/-- Model of `Map.prototype.set`: bind `k` to `v`, overwriting any previous binding. -/
def mapSet {α : Type} (k : String) (v : α) (m : List (String × α)) : List (String × α) :=
  (k, v) :: mapDelete k m

theorem lookup_mapDelete_self {α : Type} (k : String) (m : List (String × α)) :
    (mapDelete k m).lookup k = none := by
  rw [List.lookup_eq_none_iff]
  intro p hp
  simp only [mapDelete, List.mem_filter, bne_iff_ne] at hp
  exact bne_iff_ne.mpr (Ne.symm hp.2)

theorem lookup_mapDelete_ne {α : Type} (k k' : String) (m : List (String × α))
    (h : k' ≠ k) : (mapDelete k m).lookup k' = m.lookup k' := by
  induction m with
  | nil => rfl
  | cons a m ih =>
    obtain ⟨a1, a2⟩ := a
    by_cases ha : a1 = k
    · subst ha
      have hk : (k' == a1) = false := beq_eq_false_iff_ne.mpr h
      simpa [mapDelete, List.filter_cons, List.lookup_cons, hk] using ih
    · have hb : (a1 != k) = true := bne_iff_ne.mpr ha
      simp only [mapDelete, List.filter_cons, hb, if_true, List.lookup_cons]
      cases hkk : (k' == a1)
      · simpa [hkk] using ih
      · simp [hkk]

theorem lookup_mapSet_self {α : Type} (k : String) (v : α) (m : List (String × α)) :
    (mapSet k v m).lookup k = some v := by
  simp [mapSet, List.lookup_cons]

/-! ### Capability token service (`tokenGenerator.js`) -/

/-- Value stored for one download token, keyed by the sha256 hex of the token. -/
structure TokenData where
  filename : String
  expiresAt : Nat
  used : Bool
  deriving Repr, DecidableEq

/-- The in-memory token store, `downloadTokens` in the source. -/
def TokenStore : Type := List (String × TokenData)

/-- Shape of the result objects of `validateDownloadToken`:
`{ valid: true }` or `{ valid: false, error: <reason> }`. -/
structure TokenValidation where
  valid : Bool
  error : Option String
  deriving Repr, DecidableEq

/-- Full outcome of one `validateDownloadToken` call: the returned result
object, the token store after the call, and the hash whose deletion the call
scheduled with `setTimeout` (fires 60 s later; `none` when nothing was
scheduled). -/
structure TokenValidationOutcome where
  result : TokenValidation
  store : TokenStore
  scheduledDelete : Option String

/-- Embedding of `generateDownloadToken(filename)`.  The fresh `uuidv4()`
token and `Date.now()` are passed in, as is the sha256 hex digest `hash`;
`expiry` is `TOKEN_EXPIRY_MS` (`config.security.tokenExpiry`).  Returns the
token and the updated store. -/
def generateDownloadToken (hash : String → String) (now expiry : Nat)
    (token filename : String) (store : TokenStore) : String × TokenStore :=
  (token, mapSet (hash token) ⟨filename, now + expiry, false⟩ store)

/-- Embedding of `validateDownloadToken(token, filename)`; `now` is
`Date.now()` at the time of the call. -/
def validateDownloadToken (hash : String → String) (now : Nat)
    (store : TokenStore) (token filename : String) : TokenValidationOutcome :=
  match store.lookup (hash token) with
  | none => ⟨⟨false, some "Invalid token"⟩, store, none⟩
  | some tokenData =>
    if tokenData.used then
      ⟨⟨false, some "Token already used"⟩, store, none⟩
    else if tokenData.expiresAt < now then
      ⟨⟨false, some "Token expired"⟩, mapDelete (hash token) store, none⟩
    else if tokenData.filename ≠ filename then
      ⟨⟨false, some "Token does not match file"⟩, store, none⟩
    else
      ⟨⟨true, none⟩, mapSet (hash token) { tokenData with used := true } store,
        some (hash token)⟩

theorem validateDownloadToken_notFound {hash : String → String} {now : Nat}
    {store : TokenStore} {token filename : String}
    (hl : store.lookup (hash token) = none) :
    validateDownloadToken hash now store token filename =
      ⟨⟨false, some "Invalid token"⟩, store, none⟩ := by
  unfold validateDownloadToken
  rw [hl]

theorem validateDownloadToken_used {hash : String → String} {now : Nat}
    {store : TokenStore} {token filename : String} {d : TokenData}
    (hl : store.lookup (hash token) = some d) (hu : d.used = true) :
    validateDownloadToken hash now store token filename =
      ⟨⟨false, some "Token already used"⟩, store, none⟩ := by
  unfold validateDownloadToken
  rw [hl]
  simp [hu]

theorem validateDownloadToken_expired {hash : String → String} {now : Nat}
    {store : TokenStore} {token filename : String} {d : TokenData}
    (hl : store.lookup (hash token) = some d) (hu : d.used = false)
    (he : d.expiresAt < now) :
    validateDownloadToken hash now store token filename =
      ⟨⟨false, some "Token expired"⟩, mapDelete (hash token) store, none⟩ := by
  unfold validateDownloadToken
  rw [hl]
  simp [hu, he]

theorem validateDownloadToken_mismatch {hash : String → String} {now : Nat}
    {store : TokenStore} {token filename : String} {d : TokenData}
    (hl : store.lookup (hash token) = some d) (hu : d.used = false)
    (he : ¬ d.expiresAt < now) (hf : d.filename ≠ filename) :
    validateDownloadToken hash now store token filename =
      ⟨⟨false, some "Token does not match file"⟩, store, none⟩ := by
  unfold validateDownloadToken
  rw [hl]
  simp [hu, he, hf]

theorem validateDownloadToken_success {hash : String → String} {now : Nat}
    {store : TokenStore} {token filename : String} {d : TokenData}
    (hl : store.lookup (hash token) = some d) (hu : d.used = false)
    (he : ¬ d.expiresAt < now) (hf : d.filename = filename) :
    validateDownloadToken hash now store token filename =
      ⟨⟨true, none⟩, mapSet (hash token) { d with used := true } store,
        some (hash token)⟩ := by
  unfold validateDownloadToken
  rw [hl]
  simp [hu, he, hf]

/-- C2: `validateDownloadToken(token, filename)` succeeds if and only if the
store contains `hash(token)`, the entry is unexpired (`now` not past
`expiresAt`), unused, and the supplied filename equals the bound filename
exactly; each failure mode yields its distinct reason (an entry that is both
used and expired reports `already used`, as the checks run in that order). -/
theorem validateDownloadToken_spec_c2 (hash : String → String) (now : Nat)
    (store : TokenStore) (token filename : String) :
    ((validateDownloadToken hash now store token filename).result.valid = true ↔
      ∃ d, store.lookup (hash token) = some d ∧ d.used = false ∧
        now ≤ d.expiresAt ∧ d.filename = filename) ∧
    (store.lookup (hash token) = none →
      (validateDownloadToken hash now store token filename).result =
        ⟨false, some "Invalid token"⟩) ∧
    (∀ d, store.lookup (hash token) = some d → d.used = true →
      (validateDownloadToken hash now store token filename).result =
        ⟨false, some "Token already used"⟩) ∧
    (∀ d, store.lookup (hash token) = some d → d.used = false →
      d.expiresAt < now →
      (validateDownloadToken hash now store token filename).result =
        ⟨false, some "Token expired"⟩) ∧
    (∀ d, store.lookup (hash token) = some d → d.used = false →
      now ≤ d.expiresAt → d.filename ≠ filename →
      (validateDownloadToken hash now store token filename).result =
        ⟨false, some "Token does not match file"⟩) := by
  refine ⟨⟨?_, ?_⟩, ?_, ?_, ?_, ?_⟩
  · intro hv
    cases hl : store.lookup (hash token) with
    | none => rw [validateDownloadToken_notFound hl] at hv; cases hv
    | some d =>
      cases hu : d.used with
      | true => rw [validateDownloadToken_used hl hu] at hv; cases hv
      | false =>
        by_cases he : d.expiresAt < now
        · rw [validateDownloadToken_expired hl hu he] at hv; cases hv
        · by_cases hf : d.filename = filename
          · exact ⟨d, rfl, hu, Nat.not_lt.mp he, hf⟩
          · rw [validateDownloadToken_mismatch hl hu he hf] at hv; cases hv
  · rintro ⟨d, hl, hu, hexp, hf⟩
    rw [validateDownloadToken_success hl hu (Nat.not_lt.mpr hexp) hf]
  · intro hl
    rw [validateDownloadToken_notFound hl]
  · intro d hl hu
    rw [validateDownloadToken_used hl hu]
  · intro d hl hu he
    rw [validateDownloadToken_expired hl hu he]
  · intro d hl hu hexp hf
    rw [validateDownloadToken_mismatch hl hu (Nat.not_lt.mpr hexp) hf]

/-- Witness for C2: concrete instances of the success case and of each
failure branch of `validateDownloadToken`. -/
theorem validateDownloadToken_spec_c2_witness :
    (validateDownloadToken id 50 [("tok", ⟨"file.mp3", 100, false⟩)]
      "tok" "file.mp3").result.valid = true ∧
    (validateDownloadToken id 200 [("tok", ⟨"file.mp3", 100, false⟩)]
      "tok" "file.mp3").result = ⟨false, some "Token expired"⟩ ∧
    (validateDownloadToken id 50 [] "tok" "file.mp3").result =
      ⟨false, some "Invalid token"⟩ ∧
    (validateDownloadToken id 50 [("tok", ⟨"file.mp3", 100, true⟩)]
      "tok" "file.mp3").result = ⟨false, some "Token already used"⟩ ∧
    (validateDownloadToken id 50 [("tok", ⟨"file.mp3", 100, false⟩)]
      "tok" "other.mp3").result = ⟨false, some "Token does not match file"⟩ := by
  refine ⟨?_, ?_, ?_, ?_, ?_⟩
  · exact (validateDownloadToken_spec_c2 id 50 _ "tok" "file.mp3").1.mpr
      ⟨⟨"file.mp3", 100, false⟩, by decide, rfl, by decide, rfl⟩
  · exact (validateDownloadToken_spec_c2 id 200 _ "tok" "file.mp3").2.2.2.1
      ⟨"file.mp3", 100, false⟩ (by decide) rfl (by decide)
  · exact (validateDownloadToken_spec_c2 id 50 [] "tok" "file.mp3").2.1 (by decide)
  · exact (validateDownloadToken_spec_c2 id 50 _ "tok" "file.mp3").2.2.1
      ⟨"file.mp3", 100, true⟩ (by decide) rfl
  · exact (validateDownloadToken_spec_c2 id 50 _ "tok" "other.mp3").2.2.2.2
      ⟨"file.mp3", 100, false⟩ (by decide) rfl (by decide) (by decide)

/-- C3: a token issued by `generateDownloadToken` for filename `f` validates
successfully once and, validated again with the same `(token, f)` pair,
fails with `Token already used`: the first success marks `used := true` in
the store as part of the same call and only schedules deletion of the entry
for later (`scheduledDelete`), so the entry is still present, marked used. -/
theorem token_single_use_c3 (hash : String → String) (t0 t1 expiry : Nat)
    (token filename : String) (store : TokenStore)
    (h1 : t1 ≤ t0 + expiry) :
    (validateDownloadToken hash t1
        (generateDownloadToken hash t0 expiry token filename store).2
        token filename).result = ⟨true, none⟩ ∧
    (validateDownloadToken hash t1
        (generateDownloadToken hash t0 expiry token filename store).2
        token filename).store.lookup (hash token) =
      some ⟨filename, t0 + expiry, true⟩ ∧
    (validateDownloadToken hash t1
        (generateDownloadToken hash t0 expiry token filename store).2
        token filename).scheduledDelete = some (hash token) ∧
    ∀ t2, (validateDownloadToken hash t2
        (validateDownloadToken hash t1
          (generateDownloadToken hash t0 expiry token filename store).2
          token filename).store
        token filename).result = ⟨false, some "Token already used"⟩ := by
  have hgen : (generateDownloadToken hash t0 expiry token filename store).2.lookup
      (hash token) = some ⟨filename, t0 + expiry, false⟩ :=
    lookup_mapSet_self _ _ _
  have hval : validateDownloadToken hash t1
      (generateDownloadToken hash t0 expiry token filename store).2
      token filename =
      ⟨⟨true, none⟩,
        mapSet (hash token) ⟨filename, t0 + expiry, true⟩
          (generateDownloadToken hash t0 expiry token filename store).2,
        some (hash token)⟩ :=
    validateDownloadToken_success hgen rfl (Nat.not_lt.mpr h1) rfl
  have hlook : (validateDownloadToken hash t1
      (generateDownloadToken hash t0 expiry token filename store).2
      token filename).store.lookup (hash token) =
      some ⟨filename, t0 + expiry, true⟩ := by
    rw [hval]
    exact lookup_mapSet_self _ _ _
  refine ⟨by rw [hval], hlook, by rw [hval], ?_⟩
  intro t2
  rw [validateDownloadToken_used hlook rfl]

/-- Witness for C3: a concrete token generated at time 0 with the default
5-minute TTL validates at time 100, then fails as already used. -/
theorem token_single_use_c3_witness :
    (100 ≤ 0 + 300000) ∧
    (validateDownloadToken id 100
        (generateDownloadToken id 0 300000 "tok" "song.mp3" []).2
        "tok" "song.mp3").result = ⟨true, none⟩ ∧
    (validateDownloadToken id 900
        (validateDownloadToken id 100
          (generateDownloadToken id 0 300000 "tok" "song.mp3" []).2
          "tok" "song.mp3").store
        "tok" "song.mp3").result = ⟨false, some "Token already used"⟩ := by
  have h := token_single_use_c3 id 0 100 300000 "tok" "song.mp3" [] (by decide)
  exact ⟨by decide, h.1, h.2.2.2 900⟩

/-- C10: validating an expired, unused token deletes its entry as a side
effect: the first call fails with `Token expired`, and any subsequent call
with the same token (at any time, for any filename) fails with the
not-found reason `Invalid token`. -/
theorem expired_token_deleted_c10 (hash : String → String) (now : Nat)
    (store : TokenStore) (token filename : String) (d : TokenData)
    (hl : store.lookup (hash token) = some d)
    (hu : d.used = false)
    (he : d.expiresAt < now) :
    (validateDownloadToken hash now store token filename).result =
      ⟨false, some "Token expired"⟩ ∧
    ∀ now2 filename2,
      (validateDownloadToken hash now2
          (validateDownloadToken hash now store token filename).store
          token filename2).result = ⟨false, some "Invalid token"⟩ := by
  have hval : validateDownloadToken hash now store token filename =
      ⟨⟨false, some "Token expired"⟩, mapDelete (hash token) store, none⟩ :=
    validateDownloadToken_expired hl hu he
  refine ⟨by rw [hval], ?_⟩
  intro now2 filename2
  have hnone : (validateDownloadToken hash now store token filename).store.lookup
      (hash token) = none := by
    rw [hval]
    exact lookup_mapDelete_self _ _
  rw [validateDownloadToken_notFound hnone]

/-- Witness for C10: a concrete expired unused token fails as expired, then
as invalid. -/
theorem expired_token_deleted_c10_witness :
    (validateDownloadToken id 11 [("tok", ⟨"f.mp3", 10, false⟩)]
      "tok" "f.mp3").result = ⟨false, some "Token expired"⟩ ∧
    (validateDownloadToken id 12
        (validateDownloadToken id 11 [("tok", ⟨"f.mp3", 10, false⟩)]
          "tok" "f.mp3").store
        "tok" "f.mp3").result = ⟨false, some "Invalid token"⟩ := by
  have h := expired_token_deleted_c10 id 11 [("tok", ⟨"f.mp3", 10, false⟩)]
    "tok" "f.mp3" ⟨"f.mp3", 10, false⟩ (by decide) rfl (by decide)
  exact ⟨h.1, h.2 12 "f.mp3"⟩

/-! ### Request validators (`validators.js`) -/

/-- Characters matched by the JavaScript regex class `\s`; these are also
the characters stripped by `String.prototype.trim`. -/
def isJsSpace (c : Char) : Bool :=
  c == ' ' || c == '\t' || c == '\n' || c == '\r' ||
  c.toNat == 11 || c.toNat == 12 ||
  c.toNat == 0xa0 || c.toNat == 0x1680 ||
  (decide (0x2000 ≤ c.toNat) && decide (c.toNat ≤ 0x200a)) ||
  c.toNat == 0x2028 || c.toNat == 0x2029 || c.toNat == 0x202f ||
  c.toNat == 0x205f || c.toNat == 0x3000 || c.toNat == 0xfeff

/-- Model of `String.prototype.toLowerCase` (the inputs of interest are in
the basic latin range, where it lowers exactly the letters `A`–`Z`). -/
def jsToLower (s : String) : String :=
  ⟨s.data.map Char.toLower⟩

/-- Model of `String.prototype.trim`: strip `\s` characters from both ends. -/
def jsTrim (s : String) : String :=
  ⟨((s.data.dropWhile isJsSpace).reverse.dropWhile isJsSpace).reverse⟩

/-- Model of `String.prototype.includes(sub)`: substring containment. -/
def jsIncludes (s sub : String) : Bool :=
  decide (sub.data <:+: s.data)

/-- Model of `String.prototype.startsWith(p)`. -/
def jsStartsWith (s p : String) : Bool :=
  p.data.isPrefixOf s.data

/-- Model of `String.prototype.endsWith(p)`. -/
def jsEndsWith (s p : String) : Bool :=
  p.data.isSuffixOf s.data

/-- The format whitelist `ALLOWED_FORMATS` of `validators.js`. -/
def ALLOWED_FORMATS : List String := ["mp3", "wav", "flac", "m4a", "aac", "opus"]

/-- Shape of the result objects of `validateAudioFormat`. -/
structure FormatValidation where
  valid : Bool
  format : Option String
  error : Option String
  deriving Repr, DecidableEq

/-- Embedding of `validateAudioFormat(format)` (the `typeof` guard is outside
the model: the Lean input is always a string; the empty string is the falsy
string). -/
def validateAudioFormat (format : String) : FormatValidation :=
  if format = "" then ⟨false, none, some "Format is required"⟩
  else if ALLOWED_FORMATS.contains (jsTrim (jsToLower format)) then
    ⟨true, some (jsTrim (jsToLower format)), none⟩
  else ⟨false, none, some "Format must be one of: mp3, wav, flac, m4a, aac, opus"⟩

/-- Model of the expression `format || 'mp3'` with which
`validateDownloadRequest` in `middleware/validation.js` applies the default
format: an absent or falsy (empty) format field becomes `"mp3"`. -/
def jsOrDefaultFormat (format : Option String) : String :=
  match format with
  | none => "mp3"
  | some s => if s = "" then "mp3" else s

/-- Character class kept unchanged by the sanitizing replacement
`replace(/[^a-zA-Z0-9-_\s]/g, '_')` of `validateCustomFilename`. -/
def isFilenameSafeChar (c : Char) : Bool :=
  c.isAlpha || c.isDigit || c == '-' || c == '_' || isJsSpace c

/-- The replacement `filename.replace(/[^a-zA-Z0-9-_\s]/g, '_')`. -/
def jsSanitizeName (s : String) : String :=
  ⟨s.data.map fun c => if isFilenameSafeChar c then c else '_'⟩

/-- Shape of the result objects of `validateCustomFilename`. -/
structure FilenameValidation where
  valid : Bool
  filename : Option String
  error : Option String
  deriving Repr, DecidableEq

/-- Embedding of `validateCustomFilename(filename)` (again the falsy branch
is the empty string and the `typeof` guard is outside the model). -/
def validateCustomFilename (filename : String) : FilenameValidation :=
  if filename = "" then ⟨true, none, none⟩
  else if 200 < filename.length then
    ⟨false, none, some "Filename too long (max 200 characters)"⟩
  else if jsIncludes filename ".." || jsIncludes filename "/" ||
      jsIncludes filename "\\" then
    ⟨false, none, some "Invalid filename characters"⟩
  else ⟨true, some (jsSanitizeName filename), none⟩

/-- C6: `validateAudioFormat` accepts exactly the whitelist, matching
case-insensitively and normalizing to lowercase (trimmed); the default
`"mp3"` is applied by `validateDownloadRequest` when the field is absent;
`"mp3; rm -rf /"` fails and `"MP3"` succeeds as `"mp3"`. -/
theorem validateAudioFormat_spec_c6 :
    (∀ s, (validateAudioFormat s).valid = true ↔
      ALLOWED_FORMATS.contains (jsTrim (jsToLower s)) = true) ∧
    (∀ s, (validateAudioFormat s).valid = true →
      (validateAudioFormat s).format = some (jsTrim (jsToLower s))) ∧
    validateAudioFormat (jsOrDefaultFormat none) = ⟨true, some "mp3", none⟩ ∧
    (validateAudioFormat "mp3; rm -rf /").valid = false ∧
    validateAudioFormat "MP3" = ⟨true, some "mp3", none⟩ := by
  refine ⟨?_, ?_, by decide, by decide, by decide⟩
  · intro s
    by_cases h : s = ""
    · subst h; decide
    · by_cases hc : jsTrim (jsToLower s) ∈ ALLOWED_FORMATS
      · simp [validateAudioFormat, h, hc]
      · simp [validateAudioFormat, h, hc]
  · intro s hv
    by_cases h : s = ""
    · subst h; cases hv
    · by_cases hc : jsTrim (jsToLower s) ∈ ALLOWED_FORMATS
      · simp [validateAudioFormat, h, hc]
      · simp [validateAudioFormat, h, hc] at hv

/-- Witness for C6: the universally quantified conjuncts instantiated at
`" FLAC "`, whose normalization is in the whitelist. -/
theorem validateAudioFormat_spec_c6_witness :
    (validateAudioFormat " FLAC ").valid = true ∧
    (validateAudioFormat " FLAC ").format = some "flac" := by
  have h1 := (validateAudioFormat_spec_c6.1 " FLAC ").mpr (by decide)
  have h2 := validateAudioFormat_spec_c6.2.1 " FLAC " h1
  exact ⟨h1, by rw [h2]; decide⟩

/-- C5 counterexample: the claim says every input containing a shell
metacharacter (here `;`), or a leading `.`, is rejected, and that accepted
values pass through trimmed but otherwise unchanged.  The code instead
accepts `"a;b"` (sanitizing it to `"a_b"`), accepts `".hidden"` (as
`"_hidden"`), and returns `"  My Song  "` untrimmed. -/
theorem validateCustomFilename_c5_counterexample :
    (validateCustomFilename "a;b").valid = true ∧
    (validateCustomFilename "a;b").filename = some "a_b" ∧
    (validateCustomFilename ".hidden").valid = true ∧
    (validateCustomFilename ".hidden").filename = some "_hidden" ∧
    (validateCustomFilename "  My Song  ").filename = some "  My Song  " := by
  refine ⟨by decide, by decide, by decide, by decide, by decide⟩

/-- C5 amended: `validateCustomFilename` rejects inputs longer than 200
characters and inputs containing `..`, `/` or `\`; every other non-empty
input is accepted with each character outside `[a-zA-Z0-9-_\s]` replaced by
`_` — shell metacharacters and leading dots are sanitized, not rejected, and
no trimming happens.  `"../../etc/passwd"` is rejected; `"My Song"` is
accepted unchanged. -/
theorem validateCustomFilename_amended_c5 :
    (∀ s, (validateCustomFilename s).valid = false ↔
      (s ≠ "" ∧ (200 < s.length ∨ jsIncludes s ".." = true ∨
        jsIncludes s "/" = true ∨ jsIncludes s "\\" = true))) ∧
    (∀ s, s ≠ "" → (validateCustomFilename s).valid = true →
      (validateCustomFilename s).filename = some (jsSanitizeName s)) ∧
    (validateCustomFilename "../../etc/passwd").valid = false ∧
    validateCustomFilename "My Song" = ⟨true, some "My Song", none⟩ := by
  refine ⟨?_, ?_, by decide, by decide⟩
  · intro s
    by_cases h : s = ""
    · subst h; simp [validateCustomFilename]
    · by_cases hlen : 200 < s.length
      · simp [validateCustomFilename, h, hlen]
      · by_cases hdd : jsIncludes s ".." = true
        · simp [validateCustomFilename, h, hlen, hdd]
        · by_cases hsl : jsIncludes s "/" = true
          · simp [validateCustomFilename, h, hlen, hdd, hsl]
          · by_cases hbs : jsIncludes s "\\" = true
            · simp [validateCustomFilename, h, hlen, hdd, hsl, hbs]
            · simp [validateCustomFilename, h, hlen, hdd, hsl, hbs]
  · intro s h hv
    by_cases hlen : 200 < s.length
    · simp [validateCustomFilename, h, hlen] at hv
    · by_cases hdd : jsIncludes s ".." = true
      · simp [validateCustomFilename, h, hlen, hdd] at hv
      · by_cases hsl : jsIncludes s "/" = true
        · simp [validateCustomFilename, h, hlen, hdd, hsl] at hv
        · by_cases hbs : jsIncludes s "\\" = true
          · simp [validateCustomFilename, h, hlen, hdd, hsl, hbs] at hv
          · simp [validateCustomFilename, h, hlen, hdd, hsl, hbs]

/-- Witness for C5 (amended): the characterization instantiated at the
accepted name `"Song"` and the rejected name `"../x"`. -/
theorem validateCustomFilename_amended_c5_witness :
    (validateCustomFilename "Song").filename = some "Song" ∧
    (validateCustomFilename "../x").valid = false := by
  constructor
  · have h := validateCustomFilename_amended_c5.2.1 "Song" (by decide) (by decide)
    rw [h]; decide
  · exact (validateCustomFilename_amended_c5.1 "../x").mpr
      ⟨by decide, Or.inr (Or.inl (by decide))⟩

/-! ### URL validator (`validateYouTubeUrl` in `validators.js`)

The two URL primitives the function calls — `validator.isURL` and the WHATWG
`new URL(...)` parser — are external library code, so they are injected as
parameters: `isURL : String → Bool` and `parseUrl : String → Option ParsedUrl`
(`none` models the `catch` branch).  Everything the repository itself does
with their results is embedded literally. -/

/-- The fields of a WHATWG `URL` object that `validateYouTubeUrl` reads. -/
structure ParsedUrl where
  hostname : String
  href : String
  deriving Repr, DecidableEq

/-- The domain whitelist `YOUTUBE_DOMAINS` of `validators.js`. -/
def YOUTUBE_DOMAINS : List String :=
  ["youtube.com", "www.youtube.com", "m.youtube.com", "music.youtube.com",
    "youtu.be"]

/-- The whitelist test `YOUTUBE_DOMAINS.some(domain => hostname === domain ||
hostname.endsWith('.' + domain))` applied to the lowercased hostname. -/
def isYouTubeHost (hostname : String) : Bool :=
  YOUTUBE_DOMAINS.any fun domain =>
    hostname == domain || jsEndsWith hostname ("." ++ domain)

/-- The protocol-defaulting `url.startsWith('http') ? url :
`https://${url}`` before parsing. -/
def withProtocol (url : String) : String :=
  if jsStartsWith url "http" then url else "https://" ++ url

/-- Shape of the result objects of `validateYouTubeUrl`. -/
structure UrlValidation where
  valid : Bool
  url : Option String
  error : Option String
  deriving Repr, DecidableEq

/-- Embedding of `validateYouTubeUrl(url)` with the library URL primitives
injected. -/
def validateYouTubeUrl (isURL : String → Bool)
    (parseUrl : String → Option ParsedUrl) (url : String) : UrlValidation :=
  if url = "" then ⟨false, none, some "URL is required"⟩
  else if ¬ isURL url then ⟨false, none, some "Invalid URL format"⟩
  else
    match parseUrl (withProtocol url) with
    | none => ⟨false, none, some "Invalid URL"⟩
    | some parsedUrl =>
      if isYouTubeHost (jsToLower parsedUrl.hostname) then
        ⟨true, some parsedUrl.href, none⟩
      else ⟨false, none, some "URL must be from YouTube"⟩

/-- A hostname made only of decimal digits and dots — the shape of every
literal dotted-decimal IPv4 host, in particular every private, loopback or
link-local address. -/
def isDigitDotHost (hostname : String) : Bool :=
  hostname.data.all fun c => c.isDigit || c == '.'

theorem isYouTubeHost_eq_false_of_digitDot (hostname : String)
    (h : isDigitDotHost hostname = true) : isYouTubeHost hostname = false := by
  have hchars : ∀ c ∈ hostname.data, c.isDigit ∨ c = '.' := by
    intro c hc
    have := List.all_eq_true.mp h c hc
    rcases Bool.or_eq_true_iff.mp this with h1 | h1
    · exact Or.inl h1
    · exact Or.inr (by simpa using h1)
  have hy : 'y' ∉ hostname.data := by
    intro hy
    rcases hchars 'y' hy with h1 | h1
    · simp [Char.isDigit] at h1
    · cases h1
  rw [isYouTubeHost]
  rw [List.any_eq_false]
  intro domain hdom
  simp only [Bool.not_eq_true, Bool.or_eq_false_iff]
  constructor
  · rw [beq_eq_false_iff_ne]
    intro he
    rw [he] at hy
    fin_cases hdom <;> exact hy (by decide)
  · rw [jsEndsWith]
    rw [Bool.eq_false_iff]
    intro hsuf
    have hsub : ("." ++ domain).data.Sublist hostname.data :=
      (List.isSuffixOf_iff_suffix.mp hsuf).sublist
    have hmem : 'y' ∈ ("." ++ domain).data := by
      fin_cases hdom <;> decide
    exact hy (hsub.mem hmem)

/-- A digit or a dot is left unchanged by `Char.toLower`. -/
theorem jsToLower_digitDot (hostname : String)
    (h : isDigitDotHost hostname = true) :
    isDigitDotHost (jsToLower hostname) = true := by
  rw [isDigitDotHost, jsToLower]
  rw [List.all_eq_true]
  intro c hc
  simp only [String.data] at hc
  rcases List.mem_map.mp hc with ⟨c0, hc0, rfl⟩
  have h0 := List.all_eq_true.mp h c0 hc0
  rcases Bool.or_eq_true_iff.mp h0 with h1 | h1
  · have hfix : Char.toLower c0 = c0 := by
      rw [Char.isDigit] at h1
      have hb : c0.val ≤ 57 := by
        simp only [Bool.and_eq_true, decide_eq_true_eq] at h1
        exact h1.2
      have hb' : c0.val.toNat ≤ 57 := UInt32.toNat_le_of_le (by decide) hb
      have hno : ¬ (Char.toNat c0 ≥ 65 ∧ Char.toNat c0 ≤ 90) := by
        rw [Char.toNat]
        omega
      simp [Char.toLower, hno]
    rw [hfix]
    simp [h1]
  · have he : c0 = '.' := by simpa using h1
    subst he
    decide

/-- C7: `validateYouTubeUrl` rejects every URL the basic check refuses,
every URL the parser refuses, and every URL whose parsed host does not match
the fixed domain whitelist (exactly or as a subdomain) — in particular every
literal dotted-decimal IP host, so every private/loopback/link-local
address; on success it returns the canonicalized `href`.  Instantiated:
`http://169.254.169.254/x` fails and `https://youtu.be/abc123` succeeds. -/
theorem validateYouTubeUrl_spec_c7 (isURL : String → Bool)
    (parseUrl : String → Option ParsedUrl) (url : String) :
    (isURL url = false → (validateYouTubeUrl isURL parseUrl url).valid = false) ∧
    (parseUrl (withProtocol url) = none →
      (validateYouTubeUrl isURL parseUrl url).valid = false) ∧
    (∀ p, parseUrl (withProtocol url) = some p →
      isYouTubeHost (jsToLower p.hostname) = false →
      (validateYouTubeUrl isURL parseUrl url).valid = false) ∧
    (∀ p, parseUrl (withProtocol url) = some p →
      isDigitDotHost p.hostname = true →
      (validateYouTubeUrl isURL parseUrl url).valid = false) ∧
    (∀ u, validateYouTubeUrl isURL parseUrl url = ⟨true, some u, none⟩ →
      ∃ p, parseUrl (withProtocol url) = some p ∧ u = p.href ∧
        isYouTubeHost (jsToLower p.hostname) = true) ∧
    (url = "http://169.254.169.254/x" →
      parseUrl "http://169.254.169.254/x" =
        some ⟨"169.254.169.254", "http://169.254.169.254/x"⟩ →
      (validateYouTubeUrl isURL parseUrl url).valid = false) ∧
    (url = "https://youtu.be/abc123" → isURL url = true →
      parseUrl "https://youtu.be/abc123" =
        some ⟨"youtu.be", "https://youtu.be/abc123"⟩ →
      validateYouTubeUrl isURL parseUrl url =
        ⟨true, some "https://youtu.be/abc123", none⟩) := by
  have hreject : ∀ p, parseUrl (withProtocol url) = some p →
      isDigitDotHost p.hostname = true →
      (validateYouTubeUrl isURL parseUrl url).valid = false := by
    intro p hp hdd
    by_cases h0 : url = ""
    · simp [validateYouTubeUrl, h0]
    · by_cases h1 : isURL url = true
      · have hrej : isYouTubeHost (jsToLower p.hostname) = false :=
          isYouTubeHost_eq_false_of_digitDot _ (jsToLower_digitDot _ hdd)
        simp [validateYouTubeUrl, h0, h1, hp, hrej]
      · simp [validateYouTubeUrl, h0, h1]
  refine ⟨?_, ?_, ?_, hreject, ?_, ?_, ?_⟩
  · intro h1
    by_cases h0 : url = ""
    · simp [validateYouTubeUrl, h0]
    · simp [validateYouTubeUrl, h0, h1]
  · intro hp
    by_cases h0 : url = ""
    · simp [validateYouTubeUrl, h0]
    · by_cases h1 : isURL url = true
      · simp [validateYouTubeUrl, h0, h1, hp]
      · simp [validateYouTubeUrl, h0, h1]
  · intro p hp hrej
    by_cases h0 : url = ""
    · simp [validateYouTubeUrl, h0]
    · by_cases h1 : isURL url = true
      · simp [validateYouTubeUrl, h0, h1, hp, hrej]
      · simp [validateYouTubeUrl, h0, h1]
  · intro u hu
    by_cases h0 : url = ""
    · simp [validateYouTubeUrl, h0] at hu
    · by_cases h1 : isURL url = true
      · cases hp : parseUrl (withProtocol url) with
        | none => simp [validateYouTubeUrl, h0, h1, hp] at hu
        | some p =>
          by_cases hwl : isYouTubeHost (jsToLower p.hostname) = true
          · refine ⟨p, rfl, ?_, hwl⟩
            simp [validateYouTubeUrl, h0, h1, hp, hwl] at hu
            exact hu.symm
          · simp only [Bool.not_eq_true] at hwl
            simp [validateYouTubeUrl, h0, h1, hp, hwl] at hu
      · simp [validateYouTubeUrl, h0, h1] at hu
  · intro hurl hp
    subst hurl
    exact hreject _ (by rw [show withProtocol "http://169.254.169.254/x" =
      "http://169.254.169.254/x" by decide]; exact hp) (by decide)
  · intro hurl h1 hp
    subst hurl
    have hw : withProtocol "https://youtu.be/abc123" =
        "https://youtu.be/abc123" := by decide
    have hne : ("https://youtu.be/abc123" : String) ≠ "" := by decide
    have hhost : isYouTubeHost (jsToLower "youtu.be") = true := by decide
    simp [validateYouTubeUrl, hne, h1, hw, hp, hhost]

/-- Concrete URL-parser stub used only to instantiate the C7 witness: it
resolves exactly the two URLs of the spec examples. -/
def witnessParseUrl (s : String) : Option ParsedUrl :=
  if s = "http://169.254.169.254/x" then
    some ⟨"169.254.169.254", "http://169.254.169.254/x"⟩
  else if s = "https://youtu.be/abc123" then
    some ⟨"youtu.be", "https://youtu.be/abc123"⟩
  else none

/-- Witness for C7: with the stub parser, the link-local IP URL is rejected
and the youtu.be URL is accepted with its canonical href. -/
theorem validateYouTubeUrl_spec_c7_witness :
    (validateYouTubeUrl (fun _ => true) witnessParseUrl
      "http://169.254.169.254/x").valid = false ∧
    validateYouTubeUrl (fun _ => true) witnessParseUrl
      "https://youtu.be/abc123" = ⟨true, some "https://youtu.be/abc123", none⟩ := by
  constructor
  · exact (validateYouTubeUrl_spec_c7 (fun _ => true) witnessParseUrl
      "http://169.254.169.254/x").2.2.2.2.2.1 rfl (by decide)
  · exact (validateYouTubeUrl_spec_c7 (fun _ => true) witnessParseUrl
      "https://youtu.be/abc123").2.2.2.2.2.2 rfl rfl (by decide)

/-! ### Progress tracker (`progressTracker.js`)

The `ProgressTracker` class keeps a `Map` of download records and a set of
SSE clients per download; `sendEvent` serializes a frame to one client.  The
embedding keeps the download map as an association list, identifies SSE
client connections by `Nat` sink ids, and records every frame delivery in a
global append-only `log` in delivery order, so that the frames a given sink
received are `framesTo sink log`.  `Date.now()` readings are passed in as
`Nat` arguments.  The `setTimeout`-scheduled `closeClients` after
`complete`/`fail` (1 s grace) and the hourly retention sweep `cleanup` are
later events outside these single calls and are not modelled. -/

/-- The job status enum (the values assigned to `download.status`). -/
inductive Status
  | initializing
  | fetching_metadata
  | downloading
  | completed
  | failed
  deriving Repr, DecidableEq

/-- The result object `completeDownload` receives from `index.js`. -/
structure DownloadResult where
  file : String
  downloadUrl : String
  message : String
  deriving Repr, DecidableEq

/-- A JavaScript error value: only its optional `message` is read. -/
structure JsError where
  message : Option String
  deriving Repr, DecidableEq

/-- The payload `executeDownloadWithProgress` passes to `updateProgress`. -/
structure ProgressData where
  progress : ℚ
  speed : String
  eta : String
  status : Status
  deriving Repr, DecidableEq

/-- One download record of the tracker's `downloads` map. -/
structure Download where
  id : String
  progress : ℚ
  speed : String
  eta : String
  status : Status
  statusMessage : String
  startTime : Nat
  result : Option DownloadResult
  error : Option JsError
  completedAt : Option Nat
  failedAt : Option Nat
  clients : List Nat
  deriving Repr, DecidableEq

/-- The SSE frames `sendEvent` writes (`type` plus its fields). -/
inductive Frame
  | connected (downloadId : String) (progress : ℚ) (status : Status)
  | progress (downloadId : String) (data : ProgressData)
  | status (downloadId : String) (status : Status) (message : String)
  | complete (downloadId : String) (result : DownloadResult)
  | error (downloadId : String) (message : String)
  deriving Repr, DecidableEq

/-- Tracker state: the downloads map plus the global delivery log. -/
structure TrackerState where
  downloads : List (String × Download)
  log : List (Nat × Frame)
  deriving Repr, DecidableEq

/-- The tracker before any download is created. -/
def TrackerState.empty : TrackerState := ⟨[], []⟩

/-- Embedding of `createDownload()`: the fresh uuid `id` and `Date.now()`
reading `t` are passed in. -/
def initialDownload (id : String) (t : Nat) : Download :=
  { id := id, progress := 0, speed := "0 B/s", eta := "calculating...",
    status := Status.initializing, statusMessage := "", startTime := t,
    result := none, error := none, completedAt := none, failedAt := none,
    clients := [] }

def createDownload (id : String) (t : Nat) (st : TrackerState) : TrackerState :=
  { st with downloads := mapSet id (initialDownload id t) st.downloads }

/-- Embedding of `updateProgress(downloadId, data)` for the payload shape
the Driver sends: `Object.assign` overwrites `progress`, `speed`, `eta` and
`status`, then every connected client is sent a `progress` frame. -/
def updateProgress (id : String) (data : ProgressData) (st : TrackerState) :
    TrackerState :=
  match st.downloads.lookup id with
  | none => st
  | some d =>
    { downloads := mapSet id
        ({ d with progress := data.progress, speed := data.speed, eta := data.eta, status := data.status }) st.downloads,
      log := st.log ++ d.clients.map fun c => (c, Frame.progress id data) }

/-- Embedding of `updateStatus(downloadId, status, message)`. -/
def updateStatus (id : String) (status : Status) (message : String)
    (st : TrackerState) : TrackerState :=
  match st.downloads.lookup id with
  | none => st
  | some d =>
    { downloads := mapSet id
        ({ d with status := status, statusMessage := message }) st.downloads,
      log := st.log ++ d.clients.map fun c => (c, Frame.status id status message) }

/-- Embedding of `completeDownload(downloadId, result)`; `t` is the
`Date.now()` reading stored in `completedAt`. -/
def completeDownload (id : String) (result : DownloadResult) (t : Nat)
    (st : TrackerState) : TrackerState :=
  match st.downloads.lookup id with
  | none => st
  | some d =>
    { downloads := mapSet id
        ({ d with status := Status.completed, progress := 100, result := some result, completedAt := some t }) st.downloads,
      log := st.log ++ d.clients.map fun c => (c, Frame.complete id result) }

/-- Embedding of `failDownload(downloadId, error)`; `t` is the `Date.now()`
reading stored in `failedAt`; the frame carries
`error.message || 'Download failed'`. -/
def failDownload (id : String) (err : JsError) (t : Nat) (st : TrackerState) :
    TrackerState :=
  match st.downloads.lookup id with
  | none => st
  | some d =>
    { downloads := mapSet id
        ({ d with status := Status.failed, error := some err, failedAt := some t }) st.downloads,
      log := st.log ++ d.clients.map
        fun c => (c, Frame.error id (err.message.getD "Download failed")) }

/-- Embedding of `addClient(downloadId, res)`: on an existing download the
sink joins the client set and is immediately sent the `connected` snapshot
frame with the download's current progress and status. -/
def addClient (id : String) (sink : Nat) (st : TrackerState) : TrackerState :=
  match st.downloads.lookup id with
  | none => st
  | some d =>
    { downloads := mapSet id
        ({ d with clients := if sink ∈ d.clients then d.clients else d.clients ++ [sink] }) st.downloads,
      log := st.log ++ [(sink, Frame.connected id d.progress d.status)] }

/-- Embedding of `removeClient(downloadId, res)`. -/
def removeClient (id : String) (sink : Nat) (st : TrackerState) : TrackerState :=
  match st.downloads.lookup id with
  | none => st
  | some d =>
    { st with downloads := mapSet id ({ d with clients := d.clients.erase sink }) st.downloads }

/-- The tracker calls a caller can make, enabling statements over arbitrary
call sequences. -/
inductive TrackerOp
  | create (id : String) (t : Nat)
  | updStatus (id : String) (status : Status) (message : String)
  | updProgress (id : String) (data : ProgressData)
  | complete (id : String) (result : DownloadResult) (t : Nat)
  | fail (id : String) (err : JsError) (t : Nat)
  | addClient (id : String) (sink : Nat)
  | removeClient (id : String) (sink : Nat)

/-- Interpret one call. -/
def step : TrackerOp → TrackerState → TrackerState
  | TrackerOp.create id t, st => createDownload id t st
  | TrackerOp.updStatus id s m, st => updateStatus id s m st
  | TrackerOp.updProgress id data, st => updateProgress id data st
  | TrackerOp.complete id r t, st => completeDownload id r t st
  | TrackerOp.fail id e t, st => failDownload id e t st
  | TrackerOp.addClient id sink, st => addClient id sink st
  | TrackerOp.removeClient id sink, st => removeClient id sink st

/-- Interpret a call sequence in order. -/
def run (ops : List TrackerOp) (st : TrackerState) : TrackerState :=
  ops.foldl (fun s op => step op s) st

/-- The frames delivered to one sink, in delivery order. -/
def framesTo (sink : Nat) (log : List (Nat × Frame)) : List Frame :=
  (log.filter fun p => p.1 == sink).map Prod.snd

theorem run_nil (st : TrackerState) : run [] st = st := rfl

theorem run_cons (op : TrackerOp) (ops : List TrackerOp) (st : TrackerState) :
    run (op :: ops) st = run ops (step op st) := rfl

theorem run_append (l1 l2 : List TrackerOp) (st : TrackerState) :
    run (l1 ++ l2) st = run l2 (run l1 st) := by
  simp [run, List.foldl_append]

theorem framesTo_append (sink : Nat) (l1 l2 : List (Nat × Frame)) :
    framesTo sink (l1 ++ l2) = framesTo sink l1 ++ framesTo sink l2 := by
  simp [framesTo, List.filter_append]

/-- Every tracker call only appends to the delivery log. -/
theorem step_log_extends (op : TrackerOp) (st : TrackerState) :
    ∃ ext, (step op st).log = st.log ++ ext := by
  cases op with
  | create id t => exact ⟨[], by simp [step, createDownload]⟩
  | updStatus id s m =>
    cases h : st.downloads.lookup id with
    | none => exact ⟨[], by simp [step, updateStatus, h]⟩
    | some d =>
      refine ⟨d.clients.map fun c => (c, Frame.status id s m), ?_⟩
      simp [step, updateStatus, h]
  | updProgress id data =>
    cases h : st.downloads.lookup id with
    | none => exact ⟨[], by simp [step, updateProgress, h]⟩
    | some d =>
      refine ⟨d.clients.map fun c => (c, Frame.progress id data), ?_⟩
      simp [step, updateProgress, h]
  | complete id r t =>
    cases h : st.downloads.lookup id with
    | none => exact ⟨[], by simp [step, completeDownload, h]⟩
    | some d =>
      refine ⟨d.clients.map fun c => (c, Frame.complete id r), ?_⟩
      simp [step, completeDownload, h]
  | fail id e t =>
    cases h : st.downloads.lookup id with
    | none => exact ⟨[], by simp [step, failDownload, h]⟩
    | some d =>
      refine ⟨d.clients.map
        fun c => (c, Frame.error id (e.message.getD "Download failed")), ?_⟩
      simp [step, failDownload, h]
  | addClient id sink =>
    cases h : st.downloads.lookup id with
    | none => exact ⟨[], by simp [step, addClient, h]⟩
    | some d =>
      refine ⟨[(sink, Frame.connected id d.progress d.status)], ?_⟩
      simp [step, addClient, h]
  | removeClient id sink =>
    cases h : st.downloads.lookup id with
    | none => exact ⟨[], by simp [step, removeClient, h]⟩
    | some d => exact ⟨[], by simp [step, removeClient, h]⟩

/-- A whole call sequence only appends to the delivery log. -/
theorem run_log_extends (ops : List TrackerOp) (st : TrackerState) :
    ∃ ext, (run ops st).log = st.log ++ ext := by
  induction ops generalizing st with
  | nil => exact ⟨[], by simp [run]⟩
  | cons op ops ih =>
    obtain ⟨e1, h1⟩ := step_log_extends op st
    obtain ⟨e2, h2⟩ := ih (step op st)
    refine ⟨e1 ++ e2, ?_⟩
    rw [run_cons, h2, h1, List.append_assoc]

/-- C8: a subscriber added to an existing job is immediately sent a
`connected` snapshot frame carrying the job's current status and progress,
and that frame reaches the sink before any subsequent delta frame: over any
call sequence, a sink that received nothing during `pre` and subscribes to
job `id` sees the snapshot as the first frame it is ever delivered, whatever
`post` delivers afterwards. -/
theorem subscriber_snapshot_first_c8 (pre post : List TrackerOp) (id : String)
    (sink : Nat) (d : Download)
    (hjob : (run pre TrackerState.empty).downloads.lookup id = some d)
    (hfresh : framesTo sink (run pre TrackerState.empty).log = []) :
    ∃ rest, framesTo sink
        (run (pre ++ TrackerOp.addClient id sink :: post) TrackerState.empty).log =
      Frame.connected id d.progress d.status :: rest := by
  obtain ⟨ext, hext⟩ := run_log_extends post
    (step (TrackerOp.addClient id sink) (run pre TrackerState.empty))
  have hstep : (step (TrackerOp.addClient id sink)
      (run pre TrackerState.empty)).log =
      (run pre TrackerState.empty).log ++
        [(sink, Frame.connected id d.progress d.status)] := by
    simp [step, addClient, hjob]
  refine ⟨framesTo sink ext, ?_⟩
  have hrun : run (pre ++ TrackerOp.addClient id sink :: post)
      TrackerState.empty =
      run post (step (TrackerOp.addClient id sink)
        (run pre TrackerState.empty)) := by
    rw [run_append, run_cons]
  rw [hrun, hext, hstep, List.append_assoc, framesTo_append, hfresh]
  simp [framesTo_append, framesTo]

/-- Witness for C8: a sink subscribing right after job creation first
receives the snapshot `connected` frame with the initial progress 0 and
status `initializing`, ahead of the status delta that follows. -/
theorem subscriber_snapshot_first_c8_witness :
    ∃ rest, framesTo 7 (run ([TrackerOp.create "j" 0] ++
        TrackerOp.addClient "j" 7 ::
        [TrackerOp.updStatus "j" Status.downloading "starting"])
        TrackerState.empty).log =
      Frame.connected "j" 0 Status.initializing :: rest :=
  subscriber_snapshot_first_c8 [TrackerOp.create "j" 0]
    [TrackerOp.updStatus "j" Status.downloading "starting"] "j" 7
    (initialDownload "j" 0) (by decide) rfl

/-- C1 counterexample: `completeDownload` and `failDownload` never check for
an already-terminal status, so a `failDownload` arriving after
`completeDownload` moves the job out of `completed`: its status becomes
`failed` and `failedAt` is written — the call is not a no-op. -/
theorem terminal_noop_c1_counterexample :
    (((run [TrackerOp.create "j" 0,
        TrackerOp.complete "j" ⟨"a.mp3", "/downloads/a.mp3?token=t",
          "Download complete"⟩ 5] TrackerState.empty).downloads.lookup
        "j").map fun d => d.status) = some Status.completed ∧
    (((run [TrackerOp.create "j" 0,
        TrackerOp.complete "j" ⟨"a.mp3", "/downloads/a.mp3?token=t",
          "Download complete"⟩ 5,
        TrackerOp.fail "j" ⟨some "boom"⟩ 9] TrackerState.empty).downloads.lookup
        "j").map fun d => (d.status, d.failedAt)) =
      some (Status.failed, some 9) := by
  exact ⟨by decide, by decide⟩

/-- C1 amended: `completeDownload` and `failDownload` are no-ops only when
the job id is not in the registry; on an existing job they unconditionally
overwrite status, progress/result/error and the terminal timestamp even when
the job is already terminal, so the status machine does admit transitions
out of completed/failed (a later `failDownload` moves a completed job to
failed). -/
theorem terminal_overwrite_c1_amended (st : TrackerState) (id : String)
    (r : DownloadResult) (e : JsError) (t : Nat) :
    (st.downloads.lookup id = none →
      completeDownload id r t st = st ∧ failDownload id e t st = st) ∧
    (∀ d, st.downloads.lookup id = some d →
      (((completeDownload id r t st).downloads.lookup id).map
          fun d' => (d'.status, d'.progress, d'.result, d'.completedAt)) =
        some (Status.completed, 100, some r, some t) ∧
      (((failDownload id e t st).downloads.lookup id).map
          fun d' => (d'.status, d'.error, d'.failedAt)) =
        some (Status.failed, some e, some t)) := by
  constructor
  · intro h
    constructor <;> simp [completeDownload, failDownload, h]
  · intro d h
    constructor
    · simp [completeDownload, h, lookup_mapSet_self]
    · simp [failDownload, h, lookup_mapSet_self]

/-- Witness for C1 (amended): the overwrite conjunct applied to a job that
is already completed. -/
theorem terminal_overwrite_c1_amended_witness :
    (((failDownload "j" ⟨some "boom"⟩ 9 (run [TrackerOp.create "j" 0,
        TrackerOp.complete "j" ⟨"a.mp3", "u", "m"⟩ 5]
        TrackerState.empty)).downloads.lookup "j").map
        fun d' => (d'.status, d'.error, d'.failedAt)) =
      some (Status.failed, some ⟨some "boom"⟩, some 9) :=
  ((terminal_overwrite_c1_amended
      (run [TrackerOp.create "j" 0,
        TrackerOp.complete "j" ⟨"a.mp3", "u", "m"⟩ 5] TrackerState.empty)
      "j" ⟨"a.mp3", "u", "m"⟩ ⟨some "boom"⟩ 9).2
    ({ initialDownload "j" 0 with status := Status.completed, progress := 100, result := some ⟨"a.mp3", "u", "m"⟩, completedAt := some 5 })
    (by decide)).2

/-! ### yt-dlp progress parsing and the Driver (`index.js`) -/

/-- Digits of a decimal run as a natural number. -/
def digitsToNat (l : List Char) : Nat :=
  l.foldl (fun acc c => acc * 10 + (c.toNat - 48)) 0

/-- The percentage pattern `(\d+\.?\d*)%` of `parseYtDlpProgress`, anchored
at the head of `l`, returning `parseFloat` of the capture group.  An
anchored match succeeds exactly on a maximal digit run, optionally a dot and
a second maximal digit run, followed immediately by `%`: shrinking either
greedy run only moves the `%` test onto a digit or the dot, so regex
backtracking admits no other anchored match. -/
def percentAt (l : List Char) : Option ℚ :=
  if l.takeWhile Char.isDigit = [] then none
  else
    match l.dropWhile Char.isDigit with
    | '%' :: _ => some (mkRat (digitsToNat (l.takeWhile Char.isDigit)) 1)
    | '.' :: rest2 =>
      match rest2.dropWhile Char.isDigit with
      | '%' :: _ =>
        some (mkRat (digitsToNat (l.takeWhile Char.isDigit ++
          rest2.takeWhile Char.isDigit))
          (10 ^ (rest2.takeWhile Char.isDigit).length))
      | _ => none
    | _ => none

/-- First match of the percentage pattern anywhere in the line — the
`output.match(/(\d+\.?\d*)%/)` of `parseYtDlpProgress`, which scans start
positions left to right. -/
def findPercent : List Char → Option ℚ
  | [] => none
  | c :: cs =>
    match percentAt (c :: cs) with
    | some q => some q
    | none => findPercent cs

/-- The on-progress handler of `executeDownloadWithProgress`, for output
lines in which the speed and ETA patterns do not occur (the lines used
below contain neither an `at <speed>` token nor an `ETA` token, so those
two fields fall back to `'calculating...'`): when the percentage pattern
matches, the parsed value is pushed via `updateProgress` with
`status: 'downloading'`; when it does not, nothing is pushed. -/
def onYtDlpProgressLine (id : String) (line : String) (st : TrackerState) :
    TrackerState :=
  match findPercent line.data with
  | none => st
  | some p =>
    updateProgress id ⟨p, "calculating...", "calculating...",
      Status.downloading⟩ st

/-- C4 counterexample: nothing enforces monotonicity — on yt-dlp output
lines carrying `50.0%` then `10.0%` (as happens when the tool starts a
second stream or retries), both handled while the job's status is
`downloading`, the stored progress drops from 50 to 10. -/
theorem progress_monotone_c4_counterexample :
    findPercent ("[download]  50.0% of 10.5MiB".data) = some 50 ∧
    findPercent ("[download]  10.0% of 10.5MiB".data) = some 10 ∧
    (((onYtDlpProgressLine "j" "[download]  50.0% of 10.5MiB"
        (updateStatus "j" Status.downloading "" (createDownload "j" 0
          TrackerState.empty))).downloads.lookup "j").map
        fun d => (d.status, d.progress)) = some (Status.downloading, 50) ∧
    (((onYtDlpProgressLine "j" "[download]  10.0% of 10.5MiB"
        (onYtDlpProgressLine "j" "[download]  50.0% of 10.5MiB"
          (updateStatus "j" Status.downloading "" (createDownload "j" 0
            TrackerState.empty)))).downloads.lookup "j").map
        fun d => (d.status, d.progress)) = some (Status.downloading, 10) ∧
    (10 : ℚ) < 50 := by
  refine ⟨by decide, by decide, by decide, by decide, by decide⟩

/-- C4 amended: stored progress is last-write-wins with no range or
monotonicity enforcement — after any `updateProgress` on an existing job the
record holds exactly the supplied progress, speed, eta and status, whatever
the previous values were (`completeDownload` later forces progress to 100;
no code path compares a new progress value with the old one). -/
theorem updateProgress_lastWrite_c4_amended (st : TrackerState) (id : String)
    (data : ProgressData) (d : Download)
    (hl : st.downloads.lookup id = some d) :
    (((updateProgress id data st).downloads.lookup id).map
        fun d' => (d'.progress, d'.speed, d'.eta, d'.status)) =
      some (data.progress, data.speed, data.eta, data.status) := by
  simp [updateProgress, hl, lookup_mapSet_self]

/-- Witness for C4 (amended): a concrete update stores exactly the supplied
payload. -/
theorem updateProgress_lastWrite_c4_amended_witness :
    (((updateProgress "j" ⟨10, "s", "e", Status.downloading⟩
        (createDownload "j" 0 TrackerState.empty)).downloads.lookup "j").map
        fun d' => (d'.progress, d'.speed, d'.eta, d'.status)) =
      some ((10 : ℚ), "s", "e", Status.downloading) :=
  updateProgress_lastWrite_c4_amended (createDownload "j" 0 TrackerState.empty)
    "j" ⟨10, "s", "e", Status.downloading⟩ (initialDownload "j" 0) (by decide)

/-! ### Rate limiting (`rateLimiter.js` and the `index.js` middleware chain)

`index.js` registers `app.use(apiLimiter)` before any route, then defines
`GET /health`; Express runs the `app.use` middleware for every request, so a
health request passes through `apiLimiter` like any other.  `apiLimiter` is
an `express-rate-limit` window with `max = config.rateLimit.max` (default
`RATE_LIMIT_MAX_REQUESTS = 10`) and no `skip`: within one window each
request from a client increments that client's counter, and once the
counter exceeds the cap the request is answered with the 429 response
(`Too many requests`) instead of reaching the route handler — it is never
queued.  The embedding models one window. -/

/-- Per-client hit counters of one rate-limit window. -/
def LimiterState : Type := List (String × Nat)

/-- Requests counted so far for `ip` in the current window. -/
def hitCount (ip : String) (st : LimiterState) : Nat :=
  (st.lookup ip).getD 0

/-- One request through a limiter with cap `maxReqs`: increment the
counter, allow iff the new count is within the cap. -/
def rateLimitHit (maxReqs : Nat) (ip : String) (st : LimiterState) :
    Bool × LimiterState :=
  (decide (hitCount ip st + 1 ≤ maxReqs), mapSet ip (hitCount ip st + 1) st)

/-- Default cap of the general `apiLimiter`
(`RATE_LIMIT_MAX_REQUESTS = 10`). -/
def RATE_LIMIT_MAX : Nat := 10

/-- The two responses a `GET /health` request can receive. -/
inductive HealthResponse
  | ok
  | tooManyRequests
  deriving Repr, DecidableEq

/-- One `GET /health` request from `ip`: through `apiLimiter`, then (when
allowed) the route handler answering `{status: 'OK'}`. -/
def handleHealth (ip : String) (st : LimiterState) :
    HealthResponse × LimiterState :=
  ((if (rateLimitHit RATE_LIMIT_MAX ip st).1 then HealthResponse.ok
    else HealthResponse.tooManyRequests),
   (rateLimitHit RATE_LIMIT_MAX ip st).2)

/-- State of the limiter after `n` health requests from `ip`. -/
def iterHealth (ip : String) : Nat → LimiterState → LimiterState
  | 0, st => st
  | n + 1, st => iterHealth ip n (handleHealth ip st).2

/-- C9 counterexample: the health endpoint is not exempt from rate
limiting — the very first health request already consumes one unit of the
client's `apiLimiter` counter, and the 11th request of a window is rejected
with the 429 response. -/
theorem health_exempt_c9_counterexample :
    hitCount "1.2.3.4" (handleHealth "1.2.3.4" []).2 = 1 ∧
    (handleHealth "1.2.3.4" (iterHealth "1.2.3.4" 10 [])).1 =
      HealthResponse.tooManyRequests := by
  exact ⟨by decide, by decide⟩

/-- C9 amended: requests to the health endpoint pass through the general
`apiLimiter` like every route (`app.use` precedes the route): each consumes
one unit of the per-client counter and is rejected with the 429-equivalent
exactly when the incremented count exceeds the cap of 10 — beyond-cap
requests are rejected immediately, never queued. -/
theorem health_rate_limited_c9_amended (ip : String) (st : LimiterState) :
    hitCount ip (handleHealth ip st).2 = hitCount ip st + 1 ∧
    ((handleHealth ip st).1 = HealthResponse.tooManyRequests ↔
      RATE_LIMIT_MAX < hitCount ip st + 1) := by
  constructor
  · simp [handleHealth, rateLimitHit, hitCount, lookup_mapSet_self]
  · by_cases h : hitCount ip st + 1 ≤ RATE_LIMIT_MAX
    · simp [handleHealth, rateLimitHit, h, Nat.not_lt.mpr h]
    · simp [handleHealth, rateLimitHit, h, Nat.lt_of_not_le h]

end YtMp3
